import Mathlib

/-!
Shallow embedding of `src/graph_generator/graphviz_script.py`.

The script reads `sys.argv`, performs three fail-fast validation checks
(argument count, emptiness of the first positional argument, filesystem
existence of that path) and, when all pass, performs a single call
`render('dot', 'png', sys.argv[1])` to the external graphviz collaborator.

The embedding represents an invocation by the full argument vector
`argv : List String` (program name first, as in `sys.argv`), the filesystem
by an existence predicate `fs : String → Bool` standing for `os.path.exists`,
and the external collaborator by a function
`render : String → String → String → Except String Unit` that either
returns normally or raises an exception carrying a message string.
The result records every observable effect of one run: the lines the script
prints to standard output, the render calls it makes, the existence checks
it performs, and how the process terminates.
-/

/-- One call to the external collaborator `graphviz.render`, recording the
input-format token, the output-format token, and the file path, in the order
the script passes them. -/
structure RenderCall where
  inFmt : String
  outFmt : String
  filepath : String
deriving DecidableEq, Repr

/-- How the process terminates: Python falls off the end of the module
(normal termination, exit code 0 since the script never calls `sys.exit`),
or an exception raised by the collaborator propagates uncaught. -/
inductive Outcome where
  | normal (exitCode : Nat)
  | uncaught (err : String)
deriving DecidableEq, Repr

/-- The observable effects of one run of the script: lines printed to
standard output (in order), render calls made (in order), paths given to
`os.path.exists` (in order), and the termination outcome. -/
structure ProgResult where
  output : List String
  calls : List RenderCall
  existsChecks : List String
  outcome : Outcome
deriving DecidableEq, Repr

/-- A collaborator that always succeeds. -/
def okRender : String → String → String → Except String Unit :=
  fun _ _ _ => Except.ok ()

/-- Embedding of the whole script (lines 5-17 of `graphviz_script.py`).
Line 7: `if len(sys.argv) == 1` prints the missing-argument message.
Line 10: `dot_file = sys.argv[1]` (the initial `dot_file = str()` on line 5
is dead once this assignment happens; in the `len(sys.argv) == 1` branch it
is never read).  Line 11: `if dot_file == str()` prints the empty-path
message.  Line 14: `if path.exists(dot_file)`; line 15 calls
`render('dot', 'png', sys.argv[1])`; line 17 prints the nonexistent-path
message.  Exceptions from `render` are not caught anywhere. -/
def run (argv : List String) (fs : String → Bool)
    (render : String → String → String → Except String Unit) : ProgResult :=
  if argv.length = 1 then
    ⟨["ERROR: no path given as argument to script"], [], [], Outcome.normal 0⟩
  else
    let dot_file := argv.getD 1 ""
    if dot_file = "" then
      ⟨["ERROR: path is empty"], [], [], Outcome.normal 0⟩
    else if fs dot_file then
      match render "dot" "png" (argv.getD 1 "") with
      | Except.ok _ =>
          ⟨[], [⟨"dot", "png", argv.getD 1 ""⟩], [dot_file], Outcome.normal 0⟩
      | Except.error e =>
          ⟨[], [⟨"dot", "png", argv.getD 1 ""⟩], [dot_file], Outcome.uncaught e⟩
    else
      ⟨["ERROR: path does not exist"], [], [dot_file], Outcome.normal 0⟩

/-- C1: with a non-empty first positional argument naming an existing
filesystem entry, the script makes exactly one render call, with
input-format token "dot", output-format token "png" and that argument as
the path, and prints no error message. -/
theorem happy_path_single_render_call (prog p : String) (rest : List String)
    (fs : String → Bool) (render : String → String → String → Except String Unit)
    (hp : p ≠ "") (hfs : fs p = true) :
    (run (prog :: p :: rest) fs render).calls = [⟨"dot", "png", p⟩] ∧
      (run (prog :: p :: rest) fs render).output = [] := by
  simp only [run, List.length_cons, List.getD_cons_succ, List.getD_cons_zero]
  simp only [if_neg (by omega : ¬ (rest.length + 1 + 1 = 1)), if_neg hp, hfs, if_true]
  cases render "dot" "png" p <;> simp

/-- Witness for C1 at a concrete invocation. -/
theorem happy_path_single_render_call_witness :
    (run ["script", "g.dot"] (fun s => s == "g.dot") okRender).calls =
        [⟨"dot", "png", "g.dot"⟩] ∧
      (run ["script", "g.dot"] (fun s => s == "g.dot") okRender).output = [] :=
  happy_path_single_render_call "script" "g.dot" [] (fun s => s == "g.dot")
    okRender (by decide) (by decide)

/-- C2 counterexample: with zero positional arguments the printed line is
not the bare string "no path given as argument to script"; the script
prefixes its messages with "ERROR: ". -/
theorem missing_arg_message_not_bare :
    ¬ (run ["script"] (fun _ => false) okRender).output =
      ["no path given as argument to script"] := by
  decide

/-- C2 (amended): with zero positional arguments the script prints exactly
"ERROR: no path given as argument to script", makes no render call,
performs no filesystem existence check, and terminates normally. -/
theorem missing_arg_behavior (prog : String) (fs : String → Bool)
    (render : String → String → String → Except String Unit) :
    run [prog] fs render =
      ⟨["ERROR: no path given as argument to script"], [], [], Outcome.normal 0⟩ := by
  simp [run]

/-- C3 counterexample: with a non-empty nonexistent path the printed line is
not the bare string "path does not exist"; the script prefixes its messages
with "ERROR: ". -/
theorem nonexistent_message_not_bare :
    ¬ (run ["script", "missing.dot"] (fun _ => false) okRender).output =
      ["path does not exist"] := by
  decide

/-- C3 (amended): with a non-empty first positional argument that does not
refer to an existing filesystem entry, the script prints exactly
"ERROR: path does not exist", makes no render call, and terminates
normally, having checked existence of exactly that path. -/
theorem nonexistent_path_behavior (prog p : String) (rest : List String)
    (fs : String → Bool) (render : String → String → String → Except String Unit)
    (hp : p ≠ "") (hfs : fs p = false) :
    run (prog :: p :: rest) fs render =
      ⟨["ERROR: path does not exist"], [], [p], Outcome.normal 0⟩ := by
  simp only [run, List.length_cons, List.getD_cons_succ, List.getD_cons_zero]
  simp [if_neg (by omega : ¬ (rest.length + 1 + 1 = 1)), if_neg hp, hfs]

/-- Witness for C3 (amended) at a concrete invocation. -/
theorem nonexistent_path_behavior_witness :
    run ["script", "missing.dot"] (fun _ => false) okRender =
      ⟨["ERROR: path does not exist"], [], ["missing.dot"], Outcome.normal 0⟩ :=
  nonexistent_path_behavior "script" "missing.dot" [] (fun _ => false) okRender
    (by decide) rfl

/-- C4 counterexample: an invocation with one positional argument, the empty
string, does print the empty-path message, so the Step-2 branch is
reachable. -/
theorem empty_branch_reachable :
    (run ["script", ""] (fun _ => false) okRender).output =
      ["ERROR: path is empty"] := by
  decide

/-- C4 (amended): the Step-2 emptiness branch fires exactly when the first
positional argument is the empty string; for every invocation whose first
positional argument is non-empty, the "path is empty" message is never
printed. -/
theorem empty_branch_only_on_empty_arg (prog p : String) (rest : List String)
    (fs : String → Bool) (render : String → String → String → Except String Unit)
    (hp : p ≠ "") :
    "ERROR: path is empty" ∉ (run (prog :: p :: rest) fs render).output := by
  simp only [run, List.length_cons, List.getD_cons_succ, List.getD_cons_zero]
  simp only [if_neg (by omega : ¬ (rest.length + 1 + 1 = 1)), if_neg hp]
  by_cases hfs : fs p
  · simp only [hfs, if_true]
    cases render "dot" "png" p <;> simp
  · simp only [hfs, Bool.false_eq_true, if_false]
    decide

/-- Witness for C4 (amended) at a concrete invocation. -/
theorem empty_branch_only_on_empty_arg_witness :
    "ERROR: path is empty" ∉
      (run ["script", "g.dot"] (fun _ => true) okRender).output :=
  empty_branch_only_on_empty_arg "script" "g.dot" [] (fun _ => true) okRender
    (by decide)

/-- C5: the script's observable behaviour depends only on the program name
and the first positional argument; later arguments never matter. -/
theorem later_args_ignored (prog a : String) (r1 r2 : List String)
    (fs : String → Bool) (render : String → String → String → Except String Unit) :
    run (prog :: a :: r1) fs render = run (prog :: a :: r2) fs render := by
  simp only [run, List.length_cons, List.getD_cons_succ, List.getD_cons_zero]
  simp [if_neg (by omega : ¬ (r1.length + 1 + 1 = 1)),
    if_neg (by omega : ¬ (r2.length + 1 + 1 = 1))]

/-- C6: an exception raised by the collaborator propagates uncaught; when
the delegate call is reached and the collaborator raises, the run's outcome
is that uncaught exception, never a silent normal termination. -/
theorem collaborator_failure_propagates (prog p : String) (rest : List String)
    (fs : String → Bool) (render : String → String → String → Except String Unit)
    (e : String) (hp : p ≠ "") (hfs : fs p = true)
    (hr : render "dot" "png" p = Except.error e) :
    (run (prog :: p :: rest) fs render).outcome = Outcome.uncaught e := by
  simp only [run, List.length_cons, List.getD_cons_succ, List.getD_cons_zero]
  simp [if_neg (by omega : ¬ (rest.length + 1 + 1 = 1)), if_neg hp, hfs, hr]

/-- Witness for C6 at a concrete invocation with a failing collaborator. -/
theorem collaborator_failure_propagates_witness :
    (run ["script", "bad.dot"] (fun _ => true)
        (fun _ _ _ => Except.error "syntax error in file")).outcome =
      Outcome.uncaught "syntax error in file" :=
  collaborator_failure_propagates "script" "bad.dot" [] (fun _ => true)
    (fun _ _ _ => Except.error "syntax error in file") "syntax error in file"
    (by decide) rfl rfl

/-- C7: on every validation-failure path (no positional argument, empty
first argument, or nonexistent path) the script terminates normally with
exit code 0, raising no exception. -/
theorem validation_failure_exit_zero (prog : String) (args : List String)
    (fs : String → Bool) (render : String → String → String → Except String Unit)
    (h : args = [] ∨ args.getD 0 "" = "" ∨ fs (args.getD 0 "") = false) :
    (run (prog :: args) fs render).outcome = Outcome.normal 0 := by
  rcases args with _ | ⟨p, rest⟩
  · simp [run]
  · simp only [List.getD_cons_zero] at h
    simp only [run, List.length_cons, List.getD_cons_succ, List.getD_cons_zero]
    simp only [if_neg (by omega : ¬ (rest.length + 1 + 1 = 1))]
    rcases h with h | h | h
    · exact absurd h (by simp)
    · simp [h]
    · by_cases hp : p = ""
      · simp [hp]
      · simp [if_neg hp, h]

/-- Witness for C7 at a concrete invocation with no positional argument. -/
theorem validation_failure_exit_zero_witness :
    (run ["script"] (fun _ => false) okRender).outcome = Outcome.normal 0 :=
  validation_failure_exit_zero "script" [] (fun _ => false) okRender (Or.inl rfl)

/-- C8: every run either prints exactly one message and makes no render
call, or prints nothing and makes exactly one render call; no run does
both or neither. -/
theorem one_message_xor_one_call (prog : String) (args : List String)
    (fs : String → Bool) (render : String → String → String → Except String Unit) :
    ((run (prog :: args) fs render).output.length = 1 ∧
        (run (prog :: args) fs render).calls = []) ∨
      ((run (prog :: args) fs render).output = [] ∧
        (run (prog :: args) fs render).calls.length = 1) := by
  rcases args with _ | ⟨p, rest⟩
  · left; simp [run]
  · simp only [run, List.length_cons, List.getD_cons_succ, List.getD_cons_zero]
    simp only [if_neg (by omega : ¬ (rest.length + 1 + 1 = 1))]
    by_cases hp : p = ""
    · left; simp [hp]
    · by_cases hfs : fs p
      · right
        simp only [if_neg hp, hfs, if_true]
        cases render "dot" "png" p <;> simp
      · left
        simp only [hfs, Bool.false_eq_true, if_false, if_neg hp]
        simp

/-- C9: whenever a render call is made, its path parameter is exactly the
first positional argument as supplied, with no transformation. -/
theorem render_path_unchanged (prog p : String) (rest : List String)
    (fs : String → Bool) (render : String → String → String → Except String Unit)
    (c : RenderCall) (hc : c ∈ (run (prog :: p :: rest) fs render).calls) :
    c.filepath = p := by
  simp only [run, List.length_cons, List.getD_cons_succ, List.getD_cons_zero] at hc
  simp only [if_neg (by omega : ¬ (rest.length + 1 + 1 = 1))] at hc
  by_cases hp : p = ""
  · simp [hp] at hc
  · by_cases hfs : fs p
    · simp only [if_neg hp, hfs, if_true] at hc
      cases hr : render "dot" "png" p <;> simp only [hr] at hc <;>
        simp only [List.mem_singleton] at hc <;> subst hc <;> rfl
    · simp [if_neg hp, hfs] at hc

/-- Witness for C9 at a concrete invocation. -/
theorem render_path_unchanged_witness :
    (⟨"dot", "png", "g.dot"⟩ : RenderCall).filepath = "g.dot" :=
  render_path_unchanged "script" "g.dot" [] (fun _ => true) okRender
    ⟨"dot", "png", "g.dot"⟩ (by decide)

/-- C10: with a first positional argument equal to the empty string, the
script prints exactly "ERROR: path is empty", performs no filesystem
existence check, and makes no render call. -/
theorem empty_arg_behavior (prog : String) (rest : List String)
    (fs : String → Bool) (render : String → String → String → Except String Unit) :
    run (prog :: "" :: rest) fs render =
      ⟨["ERROR: path is empty"], [], [], Outcome.normal 0⟩ := by
  simp only [run, List.length_cons, List.getD_cons_succ, List.getD_cons_zero]
  simp [if_neg (by omega : ¬ (rest.length + 1 + 1 = 1))]
